import Mathlib

/-
Verification of the Digital Lounge real-time synchronization core.
Shallow embedding of the wire protocol, the server player registry tick,
the client reconnect backoff, the remote-player interpolation engine,
the chat command parser, the whisper routing, and the server session maps.
All definitions are translated from the TypeScript sources of the repository.
-/

/-- Three-component vector of rational coordinates, mirroring the Vector3
interface used for positions and rotations. -/
structure Vec3 where
  x : ℚ
  y : ℚ
  z : ℚ
deriving DecidableEq

/-- Minimal per-player position update sent in batch broadcasts,
mirroring PlayerPositionUpdate from player/types.ts. -/
structure PlayerPositionUpdate where
  id : String
  position : Vec3
  rotation : Vec3
  timestamp : ℚ
deriving DecidableEq

/-- Server-side player state, mirroring ServerPlayerState (PlayerState
augmented with lastUpdate and dirty) from the server PlayerRegistry. -/
structure ServerPlayerState where
  id : String
  username : String
  position : Vec3
  rotation : Vec3
  avatar : String
  status : String
  color : Nat
  lastUpdate : ℚ
  dirty : Bool
deriving DecidableEq

/-- The update record pushed for a dirty player during a tick:
id, position, rotation, and timestamp equal to lastUpdate. -/
def ServerPlayerState.toUpdate (p : ServerPlayerState) : PlayerPositionUpdate :=
  { id := p.id, position := p.position, rotation := p.rotation, timestamp := p.lastUpdate }

/-- The collection loop of PlayerRegistry.tick: scan players in order,
push an update for each dirty player and clear its dirty flag. -/
def collectDirty : List ServerPlayerState → List PlayerPositionUpdate × List ServerPlayerState
  | [] => ([], [])
  | p :: rest =>
    let tail := collectDirty rest
    if p.dirty then (p.toUpdate :: tail.1, { p with dirty := false } :: tail.2)
    else (tail.1, p :: tail.2)

/-- PlayerRegistry.tick: returns early when there is no broadcast callback
or no players; otherwise collects dirty updates, clears the collected dirty
flags, and invokes the callback (modelled as the first component being some)
only when the update array is non-empty. -/
def PlayerRegistry.tick (hasCallback : Bool) (serverTime : ℚ)
    (players : List ServerPlayerState) :
    Option (List PlayerPositionUpdate × ℚ) × List ServerPlayerState :=
  if !hasCallback || players.isEmpty then (none, players)
  else
    let c := collectDirty players
    (if c.1.length > 0 then some (c.1, serverTime) else none, c.2)

/-- Sample dirty player used in concrete witnesses. -/
def samplePlayerDirty : ServerPlayerState :=
  { id := "a1", username := "alice", position := ⟨1, 2, 3⟩, rotation := ⟨0, 1, 0⟩,
    avatar := "default", status := "active", color := 7, lastUpdate := 500, dirty := true }

/-- Sample clean player used in concrete witnesses. -/
def samplePlayerClean : ServerPlayerState :=
  { id := "b2", username := "bob", position := ⟨4, 5, 6⟩, rotation := ⟨0, 0, 0⟩,
    avatar := "default", status := "idle", color := 9, lastUpdate := 400, dirty := false }

/-- Buffered position snapshot for interpolation, mirroring PositionSnapshot
in RemotePlayer.ts. -/
structure PositionSnapshot where
  position : Vec3
  rotation : Vec3
  timestamp : ℚ
deriving DecidableEq

/-- Interpolation delay constant from RemotePlayer.ts (100 ms). -/
def INTERPOLATION_DELAY : ℚ := 100

/-- Maximum interpolation buffer size from RemotePlayer.ts. -/
def MAX_BUFFER_SIZE : Nat := 10

/-- Smoothing factor from RemotePlayer.ts (0.15). -/
def LERP_SPEED : ℚ := 15 / 100

/-- Linear interpolation of two scalars, as THREE.MathUtils.lerp. -/
def lerp (a b t : ℚ) : ℚ := a + (b - a) * t

/-- Component-wise linear interpolation of two vectors. -/
def lerpVec (a b : Vec3) (t : ℚ) : Vec3 := ⟨lerp a.x b.x t, lerp a.y b.y t, lerp a.z b.z t⟩

/-- The bracket-search loop of RemotePlayer.update: scan adjacent snapshot
pairs in order and return the first pair (prev, next) with
prev.timestamp ≤ renderTime ≤ next.timestamp, if any. -/
def findBracket : List PositionSnapshot → ℚ → Option (PositionSnapshot × PositionSnapshot)
  | a :: b :: rest, renderTime =>
    if a.timestamp ≤ renderTime ∧ renderTime ≤ b.timestamp then some (a, b)
    else findBracket (b :: rest) renderTime
  | _, _ => none

/-- The target-selection logic of RemotePlayer.update: with at least two
buffered snapshots, interpolate inside the first bracketing pair using the
clamped fraction; with exactly one snapshot, take it directly; otherwise
keep the previous target. -/
def RemotePlayer.updateTargets (buffer : List PositionSnapshot) (renderTime : ℚ)
    (targetPosition targetRotation : Vec3) : Vec3 × Vec3 :=
  if 2 ≤ buffer.length then
    match findBracket buffer renderTime with
    | some (prev, next) =>
      let duration := next.timestamp - prev.timestamp
      let elapsed := renderTime - prev.timestamp
      let t := min 1 (max 0 (elapsed / duration))
      (lerpVec prev.position next.position t, lerpVec prev.rotation next.rotation t)
    | none => (targetPosition, targetRotation)
  else
    match buffer with
    | [s] => (s.position, s.rotation)
    | _ => (targetPosition, targetRotation)

/-- The cleanup loop of RemotePlayer.update: drop leading snapshots older
than renderTime minus 1000 ms. -/
def pruneOldSnapshots (buffer : List PositionSnapshot) (renderTime : ℚ) : List PositionSnapshot :=
  buffer.dropWhile (fun s => s.timestamp < renderTime - 1000)

/-- Client-side view of a remote player relevant to the per-frame update:
the interpolation buffer, the cached targets, and the rendered transform. -/
structure RemotePlayerView where
  buffer : List PositionSnapshot
  targetPosition : Vec3
  targetRotation : Vec3
  meshPosition : Vec3
  meshRotation : Vec3
deriving DecidableEq

/-- RemotePlayer.update for one frame at wall-clock time now: compute
renderTime = now - INTERPOLATION_DELAY, update the targets, smooth the
rendered transform toward the targets by LERP_SPEED, and prune old
snapshots. -/
def RemotePlayer.update (now : ℚ) (rp : RemotePlayerView) : RemotePlayerView :=
  let renderTime := now - INTERPOLATION_DELAY
  let t := RemotePlayer.updateTargets rp.buffer renderTime rp.targetPosition rp.targetRotation
  { buffer := pruneOldSnapshots rp.buffer renderTime
    targetPosition := t.1
    targetRotation := t.2
    meshPosition := lerpVec rp.meshPosition t.1 LERP_SPEED
    meshRotation := lerpVec rp.meshRotation t.2 LERP_SPEED }

/-- Remote player with snapshots at t = 0, position (0,0,0) and t = 100,
position (10,0,0), used for the C2 interpolation example. -/
def sampleInterpView : RemotePlayerView :=
  { buffer := [⟨⟨0, 0, 0⟩, ⟨0, 0, 0⟩, 0⟩, ⟨⟨10, 0, 0⟩, ⟨0, 0, 0⟩, 100⟩]
    targetPosition := ⟨99, 99, 99⟩
    targetRotation := ⟨0, 0, 0⟩
    meshPosition := ⟨0, 0, 0⟩
    meshRotation := ⟨0, 0, 0⟩ }

/-- Remote player with a single buffered snapshot, used as the C3
counterexample input. -/
def sampleSingleSnapshotView : RemotePlayerView :=
  { buffer := [⟨⟨1, 2, 3⟩, ⟨4, 5, 6⟩, 0⟩]
    targetPosition := ⟨0, 0, 0⟩
    targetRotation := ⟨0, 0, 0⟩
    meshPosition := ⟨0, 0, 0⟩
    meshRotation := ⟨0, 0, 0⟩ }

/-- Remote player whose only two snapshots are at t = 0 and t = 50, used in
the C3 witness with renderTime = 200 beyond both. -/
def sampleStaleBufferView : RemotePlayerView :=
  { buffer := [⟨⟨0, 0, 0⟩, ⟨0, 0, 0⟩, 0⟩, ⟨⟨3, 0, 0⟩, ⟨0, 0, 0⟩, 50⟩]
    targetPosition := ⟨7, 8, 9⟩
    targetRotation := ⟨1, 1, 1⟩
    meshPosition := ⟨0, 0, 0⟩
    meshRotation := ⟨0, 0, 0⟩ }

/-- JSON value produced by JSON.parse on a text frame: null, boolean,
number, string, array, or object (an ordered field list). -/
inductive Json where
  | null
  | bool (b : Bool)
  | num (q : ℚ)
  | str (s : String)
  | arr (elems : List Json)
  | obj (fields : List (String × Json))

/-- Property access on a parsed JSON value: field lookup on objects,
undefined (none) on anything else. -/
def Json.getProp (j : Json) (key : String) : Option Json :=
  match j with
  | .obj fields => fields.lookup key
  | _ => none

/-- Wire message envelope, mirroring BaseMessage from protocol.ts:
a string type, an arbitrary JSON payload, a numeric timestamp, and a
string senderId. -/
structure Envelope where
  type : String
  payload : Json
  timestamp : ℚ
  senderId : String

/-- The serializeMessage encode from protocol.ts: a direct structural
encode of the four envelope fields into a JSON object. -/
def serializeMessage (e : Envelope) : Json :=
  .obj [("type", .str e.type), ("payload", e.payload),
        ("timestamp", .num e.timestamp), ("senderId", .str e.senderId)]

/-- The parseMessage decode from protocol.ts. The argument is the result of
JSON.parse: none when the input string is malformed JSON (JSON.parse threw),
some v otherwise. The four required fields are validated (string type,
payload present, numeric timestamp, string senderId); any failure yields
null (none) rather than an exception. -/
def parseMessage (data : Option Json) : Option Envelope :=
  match data with
  | none => none
  | some v =>
    match v.getProp "type", v.getProp "payload",
          v.getProp "timestamp", v.getProp "senderId" with
    | some (.str t), some p, some (.num ts), some (.str sid) => some ⟨t, p, ts, sid⟩
    | _, _, _, _ => none

/-- Check that a parsed JSON value carries the four required envelope
fields of section 4.1 of the specification: a string type, a payload
present, a numeric timestamp, and a string senderId. -/
def hasRequiredFields (v : Json) : Bool :=
  (match v.getProp "type" with | some (.str _) => true | _ => false) &&
  (v.getProp "payload").isSome &&
  (match v.getProp "timestamp" with | some (.num _) => true | _ => false) &&
  (match v.getProp "senderId" with | some (.str _) => true | _ => false)

/-- Client configuration, mirroring ClientConfig from websocket/client.ts
with the DEFAULT_CONFIG fields made required. -/
structure ClientConfig where
  url : String
  autoReconnect : Bool
  reconnectInterval : Nat
  maxReconnectAttempts : Nat
  heartbeatInterval : Nat
  heartbeatTimeout : Nat
deriving DecidableEq

/-- Outcome of LoungeClient.handleConnectionFailure: either give up
(transition to disconnected) or schedule a reconnect after a delay with the
incremented attempt counter. -/
inductive ReconnectOutcome where
  | giveUp
  | retry (attempts : Nat) (delay : Nat)
deriving DecidableEq

/-- LoungeClient.handleConnectionFailure: when the attempt counter has
reached maxReconnectAttempts, give up; otherwise increment the counter and
schedule a reconnect after reconnectInterval times min(counter, 5). -/
def LoungeClient.handleConnectionFailure (cfg : ClientConfig)
    (reconnectAttempts : Nat) : ReconnectOutcome :=
  if cfg.maxReconnectAttempts ≤ reconnectAttempts then .giveUp
  else
    let attempts := reconnectAttempts + 1
    .retry attempts (cfg.reconnectInterval * min attempts 5)

/-- The socket onopen handler of LoungeClient.setupSocketHandlers resets
the reconnect attempt counter to zero. -/
def LoungeClient.onSocketOpen (_reconnectAttempts : Nat) : Nat := 0

/-- Default client configuration from websocket/client.ts. -/
def defaultClientConfig : ClientConfig :=
  { url := "ws://localhost:3000", autoReconnect := true, reconnectInterval := 2000,
    maxReconnectAttempts := 10, heartbeatInterval := 25000, heartbeatTimeout := 5000 }

/-- Drop the first character of a string, as the JavaScript slice(1) used
on the slash-prefixed command input. -/
def strDrop1 (s : String) : String := String.mk (s.data.drop 1)

/-- Lowercase every character, as the JavaScript toLowerCase on the ASCII
identifiers involved. -/
def strToLower (s : String) : String := String.mk (s.data.map Char.toLower)

/-- Strip leading and trailing whitespace, as the JavaScript trim. -/
def strTrim (s : String) : String :=
  String.mk (((s.data.dropWhile Char.isWhitespace).reverse.dropWhile Char.isWhitespace).reverse)

/-- Split a character list at every single whitespace character, keeping
empty pieces, used below to build the run-collapsing split. -/
def splitOnWsChar : List Char → List String
  | [] => [""]
  | c :: rest =>
    let r := splitOnWsChar rest
    if c.isWhitespace then "" :: r
    else (String.singleton c ++ r.headD "") :: r.tail

/-- Whitespace splitting with the JavaScript regex semantics of
split(/\s+/): each maximal whitespace run is one separator, so interior
empty pieces collapse while an empty piece survives at the start or the end
of the string. -/
def jsSplitWs (s : String) : List String :=
  let raw := splitOnWsChar s.data
  let lead := if raw.headD "x" = "" then [""] else ([] : List String)
  let trail := if 2 ≤ raw.length ∧ raw.getLast? = some "" then [""] else ([] : List String)
  lead ++ raw.filter (fun t => t ≠ "") ++ trail

/-- Result of a chat send or command, mirroring CommandResult from the
ChatManager: a handled flag and an optional error text. -/
structure CommandResult where
  handled : Bool
  error : Option String
deriving DecidableEq

/-- Message that the ChatManager hands to the client for transmission. -/
inductive ClientSend where
  | whisper (targetName content : String)
  | emote (action : String)
  | chat (content : String)
deriving DecidableEq

/-- ChatManager.sendWhisper: refuse when not connected or when target or
content trim to empty, otherwise send the trimmed whisper. The send
succeeding whenever the client is connected with an assigned id is modelled
by the single connected flag. -/
def ChatManager.sendWhisper (connected : Bool) (targetName content : String) :
    CommandResult × List ClientSend :=
  if !connected then (⟨false, some "Not connected"⟩, [])
  else if strTrim targetName = "" then (⟨false, some "No target specified"⟩, [])
  else if strTrim content = "" then (⟨false, some "No message content"⟩, [])
  else (⟨true, none⟩, [.whisper (strTrim targetName) (strTrim content)])

/-- ChatManager.sendEmote: refuse when not connected or when the action
trims to empty, otherwise send the trimmed emote. -/
def ChatManager.sendEmote (connected : Bool) (action : String) :
    CommandResult × List ClientSend :=
  if !connected then (⟨false, some "Not connected"⟩, [])
  else if strTrim action = "" then (⟨false, some "No action specified"⟩, [])
  else (⟨true, none⟩, [.emote (strTrim action)])

/-- Join tokens with single spaces, as the JavaScript join of the argument
array. -/
def joinSpace : List String → String
  | [] => ""
  | [x] => x
  | x :: rest => x ++ " " ++ joinSpace rest

/-- ChatManager.handleCommand: tokenize the input after the slash on
whitespace, lowercase the first token as the command, and dispatch to the
emote, whisper, help, or unknown-command arms. -/
def ChatManager.handleCommand (connected : Bool) (input : String) :
    CommandResult × List ClientSend :=
  let parts := jsSplitWs (strDrop1 input)
  let command := strToLower (parts.headD "")
  let args := parts.tail
  if command = "me" then
    let action := joinSpace args
    if action = "" then (⟨false, some "Usage: /me <action>"⟩, [])
    else ChatManager.sendEmote connected action
  else if command = "w" ∨ command = "whisper" ∨ command = "msg" ∨ command = "tell" then
    if args.length < 2 then (⟨false, some "Usage: /w <player> <message>"⟩, [])
    else ChatManager.sendWhisper connected (args.headD "") (joinSpace args.tail)
  else if command = "help" then (⟨true, none⟩, [])
  else (⟨false, some ("Unknown command: /" ++ command)⟩, [])

/-- Server-side client session, mirroring ClientConnection from the server:
assigned id, username, socket openness, and liveness flag. -/
structure ClientConnection where
  id : String
  username : String
  socketOpen : Bool
  isAlive : Bool
deriving DecidableEq

/-- Outbound server message relevant to whisper routing. -/
inductive ServerOut where
  | chatError (code message : String)
  | chatMessage (senderId senderName content ctype : String)
      (targetId targetName : Option String)
deriving DecidableEq

/-- JavaScript truthiness of an optional string: absent and empty strings
are falsy. -/
def jsTruthy : Option String → Bool
  | none => false
  | some s => !(s = "")

/-- The playerNotFound text generator of SystemMessages in chat/types.ts. -/
def SystemMessages.playerNotFound (targetName : String) : String :=
  "Player \"" ++ targetName ++ "\" not found"

/-- The fallback chain targetName or targetId or unknown used for the
PLAYER_NOT_FOUND message text. -/
def whisperErrorName (targetName targetId : Option String) : String :=
  if jsTruthy targetName then targetName.getD ""
  else if jsTruthy targetId then targetId.getD ""
  else "unknown"

/-- The whisper target resolution of LoungeServer.handleChatMessage: a
truthy targetId is looked up in the clients map; otherwise a truthy
targetName is matched case-insensitively against usernames; otherwise no
target. -/
def findWhisperTarget (clients : List ClientConnection)
    (targetId targetName : Option String) : Option ClientConnection :=
  if jsTruthy targetId then clients.find? (fun c => c.id = targetId.getD "")
  else if jsTruthy targetName then
    clients.find? (fun c => strToLower c.username = strToLower (targetName.getD ""))
  else none

/-- LoungeServer.sendTo: transmit to the client only when its socket is
open; the result lists the pairs of recipient id and message sent. -/
def LoungeServer.sendTo (c : ClientConnection) (m : ServerOut) : List (String × ServerOut) :=
  if c.socketOpen then [(c.id, m)] else []

/-- The CHAT_WHISPER arm of LoungeServer.handleChatMessage: resolve the
target; on failure send one PLAYER_NOT_FOUND chat error back to the sender
and nothing else; on success send the whisper to the target and a
confirmation copy to the sender. -/
def LoungeServer.handleWhisper (clients : List ClientConnection)
    (sender : ClientConnection) (targetId targetName : Option String)
    (content : String) : List (String × ServerOut) :=
  match findWhisperTarget clients targetId targetName with
  | none =>
      LoungeServer.sendTo sender
        (.chatError "PLAYER_NOT_FOUND"
          (SystemMessages.playerNotFound (whisperErrorName targetName targetId)))
  | some target =>
      LoungeServer.sendTo target
        (.chatMessage sender.id sender.username content "whisper"
          (some target.id) (some target.username))
      ++ LoungeServer.sendTo sender
        (.chatMessage sender.id sender.username content "whisper"
          (some target.id) (some target.username))

/-- LoungeServer.broadcast: the ids of the clients whose socket receives
the serialized message, every open socket except the optional excludeId. -/
def LoungeServer.broadcastRecipients (clients : List ClientConnection)
    (excludeId : Option String) : List String :=
  (clients.filter (fun c =>
    (match excludeId with
     | some e => !(c.id == e)
     | none => true) && c.socketOpen)).map (fun c => c.id)

/-- The broadcast callback installed by LoungeServer.startPlayerBroadcast:
when the update list is non-empty, broadcast the PLAYER_BATCH_POSITION
message with no excludeId. -/
def LoungeServer.startPlayerBroadcastRecipients (clients : List ClientConnection)
    (updates : List PlayerPositionUpdate) : List String :=
  if 0 < updates.length then LoungeServer.broadcastRecipients clients none else []

/-- RemotePlayer.pushPositionUpdate: append the snapshot and shift off the
front while the buffer exceeds MAX_BUFFER_SIZE. -/
def RemotePlayer.pushPositionUpdate (buffer : List PositionSnapshot)
    (u : PlayerPositionUpdate) : List PositionSnapshot :=
  let b := buffer ++ [⟨u.position, u.rotation, u.timestamp⟩]
  b.drop (b.length - MAX_BUFFER_SIZE)

/-- Test from PlayerManager.handleBatchPositionUpdate for skipping the
local player: true exactly when the update id equals the local player id. -/
def isLocalUpdate (localPlayerId : Option String) (uid : String) : Bool :=
  match localPlayerId with
  | some l => uid == l
  | none => false

/-- One iteration of the loop in PlayerManager.handleBatchPositionUpdate:
skip the local player, otherwise push the update onto the buffer of the
matching remote player if one exists. -/
def PlayerManager.applyUpdate (localPlayerId : Option String)
    (remotePlayers : List (String × List PositionSnapshot))
    (u : PlayerPositionUpdate) : List (String × List PositionSnapshot) :=
  if isLocalUpdate localPlayerId u.id then remotePlayers
  else remotePlayers.map (fun e =>
    if e.1 == u.id then (e.1, RemotePlayer.pushPositionUpdate e.2 u) else e)

/-- PlayerManager.handleBatchPositionUpdate: apply each update of the batch
in order. -/
def PlayerManager.handleBatchPositionUpdate (localPlayerId : Option String)
    (remotePlayers : List (String × List PositionSnapshot))
    (updates : List PlayerPositionUpdate) : List (String × List PositionSnapshot) :=
  updates.foldl (PlayerManager.applyUpdate localPlayerId) remotePlayers

/-- Lookup of the interpolation buffer of one remote player in the client
map. -/
def lookupBuffer (remotePlayers : List (String × List PositionSnapshot))
    (pid : String) : Option (List PositionSnapshot) :=
  (remotePlayers.find? (fun e => e.1 == pid)).map (fun e => e.2)

/-- Sample connected clients (one open socket, one closed) used in
concrete witnesses. -/
def sampleClients : List ClientConnection :=
  [⟨"a1", "alice", true, true⟩, ⟨"b2", "bob", false, true⟩]

/-- Sample one-update batch used in concrete witnesses. -/
def sampleBatch : List PlayerPositionUpdate :=
  [⟨"a1", ⟨1, 0, 0⟩, ⟨0, 0, 0⟩, 5⟩]

/-- Sample client-side remote player map used in concrete witnesses. -/
def sampleRemoteMap : List (String × List PositionSnapshot) := [("c3", [])]

/-- Map.set on a list keyed by the given key function: replace the entry
with the same key if present, otherwise append. -/
def msetBy {α : Type} (key : α → String) (m : List α) (v : α) : List α :=
  if m.any (fun x => key x == key v) then
    m.map (fun x => if key x == key v then v else x)
  else m ++ [v]

/-- Map.delete on a list keyed by the given key function. -/
def mdelBy {α : Type} (key : α → String) (m : List α) (k : String) : List α :=
  m.filter (fun x => !(key x == k))

/-- PlayerRegistry.addPlayer: store a fresh default player state for the
client id, dirty so it appears in the next broadcast. The color that the
source computes with the generatePlayerColor hash of the id is passed as a
parameter, since no claim depends on its value. -/
def PlayerRegistry.addPlayer (players : List ServerPlayerState)
    (clientId username : String) (color : Nat) (now : ℚ) : List ServerPlayerState :=
  msetBy (fun p => p.id) players
    { id := clientId, username := username, position := ⟨0, 0, 0⟩, rotation := ⟨0, 0, 0⟩,
      avatar := "default", status := "active", color := color, lastUpdate := now, dirty := true }

/-- PlayerRegistry.removePlayer: delete the state of the client id. -/
def PlayerRegistry.removePlayer (players : List ServerPlayerState)
    (clientId : String) : List ServerPlayerState :=
  mdelBy (fun p => p.id) players clientId

/-- The connection handler of LoungeServer.setupServer restricted to the
two maps: register the session and add its player state in the same
synchronous step. -/
def LoungeServer.handleConnection (clients : List ClientConnection)
    (players : List ServerPlayerState) (clientId username : String)
    (color : Nat) (now : ℚ) : List ClientConnection × List ServerPlayerState :=
  (msetBy (fun c => c.id) clients ⟨clientId, username, true, true⟩,
   PlayerRegistry.addPlayer players clientId username color now)

/-- LoungeServer.handleDisconnect restricted to the two maps: remove the
player state and the session in the same synchronous step. -/
def LoungeServer.handleDisconnect (clients : List ClientConnection)
    (players : List ServerPlayerState) (clientId : String) :
    List ClientConnection × List ServerPlayerState :=
  (mdelBy (fun c => c.id) clients clientId,
   PlayerRegistry.removePlayer players clientId)

/-- The heartbeat sweep of LoungeServer.startHeartbeat restricted to the
two maps: every session not alive is terminated and removed from both maps;
every surviving session is marked not alive for the next sweep. -/
def LoungeServer.heartbeatSweep : List ClientConnection → List ServerPlayerState →
    List ClientConnection × List ServerPlayerState
  | [], players => ([], players)
  | c :: rest, players =>
    if !c.isAlive then
      LoungeServer.heartbeatSweep rest (PlayerRegistry.removePlayer players c.id)
    else
      let r := LoungeServer.heartbeatSweep rest players
      ({ c with isAlive := false } :: r.1, r.2)

/-- The session ids of the clients map. -/
def clientIds (clients : List ClientConnection) : List String :=
  clients.map (fun c => c.id)

/-- The player ids of the registry. -/
def playerIds (players : List ServerPlayerState) : List String :=
  players.map (fun p => p.id)

/-- The two-map invariant: the session ids and the player ids are the same
set, and each map holds one entry per id. -/
def MapsConsistent (clients : List ClientConnection)
    (players : List ServerPlayerState) : Prop :=
  (∀ x ∈ clientIds clients, x ∈ playerIds players) ∧
  (∀ x ∈ playerIds players, x ∈ clientIds clients) ∧
  (clientIds clients).Nodup ∧ (playerIds players).Nodup

/-- Sample clients map with one live and one dead session, used in the C9
witness. -/
def sampleSweepClients : List ClientConnection :=
  [⟨"a1", "alice", true, true⟩, ⟨"b2", "bob", true, false⟩]

lemma collectDirty_eq (players : List ServerPlayerState) :
    collectDirty players =
      ((players.filter (fun p => p.dirty)).map ServerPlayerState.toUpdate,
       players.map (fun p => { p with dirty := false })) := by
  induction players with
  | nil => rfl
  | cons p rest ih =>
    cases h : p.dirty with
    | false =>
      have hp : ({ p with dirty := false } : ServerPlayerState) = p := by
        cases p; simp_all
      simp [collectDirty, ih, h, hp]
    | true => simp [collectDirty, ih, h]

/-- C1. On every tick with at least one registered player and a broadcast
callback installed, the callback receives exactly the updates
(id, position, rotation, timestamp = lastUpdate) of the dirty players,
no callback fires when no player is dirty, and the post-tick registry is
the same list of players with every dirty flag cleared. -/
theorem tick_collects_exactly_dirty (serverTime : ℚ)
    (players : List ServerPlayerState) (hne : players ≠ []) :
    (PlayerRegistry.tick true serverTime players).1 =
      (if players.any (fun p => p.dirty) then
        some ((players.filter (fun p => p.dirty)).map
          (fun p => { id := p.id, position := p.position, rotation := p.rotation,
                      timestamp := p.lastUpdate }), serverTime)
       else none)
    ∧ (PlayerRegistry.tick true serverTime players).2 =
        players.map (fun p => { p with dirty := false }) := by
  have hempty : players.isEmpty = false := by
    cases players with
    | nil => exact absurd rfl hne
    | cons a l => rfl
  have hcd := collectDirty_eq players
  by_cases hany : players.any (fun p => p.dirty) = true
  · have hfil : (players.filter (fun p => p.dirty)) ≠ [] := by
      rcases List.any_eq_true.mp hany with ⟨x, hx, hdx⟩
      exact List.ne_nil_of_mem (List.mem_filter.mpr ⟨hx, hdx⟩)
    have hlen : 0 < ((players.filter (fun p => p.dirty)).map ServerPlayerState.toUpdate).length := by
      rw [List.length_map]
      exact List.length_pos.mpr hfil
    constructor
    · simp only [PlayerRegistry.tick, hempty, hcd, hany]
      simp [hlen, ServerPlayerState.toUpdate]
      exact List.length_pos.mpr hfil
    · simp only [PlayerRegistry.tick, hempty, hcd]
      simp
  · have hany' : players.any (fun p => p.dirty) = false := by simpa using hany
    have hfil : players.filter (fun p => p.dirty) = [] := by
      rw [List.filter_eq_nil_iff]
      intro a ha hda
      exact hany (List.any_eq_true.mpr ⟨a, ha, by simpa using hda⟩)
    constructor
    · simp only [PlayerRegistry.tick, hempty, hcd, hfil]
      simp [hany']
    · simp only [PlayerRegistry.tick, hempty, hcd]
      simp

/-- Witness for C1: a two-player registry with one dirty and one clean player. -/
theorem tick_collects_exactly_dirty_witness :
    ([samplePlayerDirty, samplePlayerClean] : List ServerPlayerState) ≠ [] ∧
    ((PlayerRegistry.tick true 1000 [samplePlayerDirty, samplePlayerClean]).1 =
      (if [samplePlayerDirty, samplePlayerClean].any (fun p => p.dirty) then
        some (([samplePlayerDirty, samplePlayerClean].filter (fun p => p.dirty)).map
          (fun p => { id := p.id, position := p.position, rotation := p.rotation,
                      timestamp := p.lastUpdate }), 1000)
       else none)
    ∧ (PlayerRegistry.tick true 1000 [samplePlayerDirty, samplePlayerClean]).2 =
        [samplePlayerDirty, samplePlayerClean].map (fun p => { p with dirty := false })) :=
  ⟨by simp, tick_collects_exactly_dirty 1000 [samplePlayerDirty, samplePlayerClean] (by simp)⟩

/-- C2. With buffered snapshots at t = 0 (position (0,0,0)) and t = 100
(position (10,0,0)) and interpolationDelay = 100, the per-frame update at
wall-clock time 100 (renderTime 0) sets the target position to (0,0,0) and
at wall-clock time 150 (renderTime 50) to the midpoint (5,0,0). -/
theorem interpolation_midpoint_example :
    (RemotePlayer.update 100 sampleInterpView).targetPosition = ⟨0, 0, 0⟩ ∧
    (RemotePlayer.update 150 sampleInterpView).targetPosition = ⟨5, 0, 0⟩ := by
  constructor <;>
  · simp only [RemotePlayer.update, RemotePlayer.updateTargets, sampleInterpView,
      findBracket, INTERPOLATION_DELAY, lerpVec, lerp, min_def, max_def]
    norm_num

/-- Counterexample to C3 as stated: with a single buffered snapshot there is
no adjacent snapshot pair at all, hence none brackets renderTime, yet the
update overwrites the target with that snapshot instead of leaving it
unchanged. -/
theorem interpolation_single_snapshot_counterexample :
    findBracket sampleSingleSnapshotView.buffer (100 - INTERPOLATION_DELAY) = none ∧
    (RemotePlayer.update 100 sampleSingleSnapshotView).targetPosition ≠
      sampleSingleSnapshotView.targetPosition := by
  constructor
  · simp [sampleSingleSnapshotView, findBracket]
  · simp only [RemotePlayer.update, RemotePlayer.updateTargets, sampleSingleSnapshotView,
      findBracket, INTERPOLATION_DELAY]
    norm_num

/-- C3 (amended). Whenever the buffer is empty, or holds at least two
snapshots none of whose adjacent pairs brackets renderTime, the per-frame
update leaves targetPosition and targetRotation exactly unchanged. -/
theorem interpolation_no_bracket_leaves_target (now : ℚ) (rp : RemotePlayerView)
    (h : rp.buffer = [] ∨ (2 ≤ rp.buffer.length ∧
      findBracket rp.buffer (now - INTERPOLATION_DELAY) = none)) :
    (RemotePlayer.update now rp).targetPosition = rp.targetPosition ∧
    (RemotePlayer.update now rp).targetRotation = rp.targetRotation := by
  rcases h with h | ⟨h2, hnb⟩
  · simp [RemotePlayer.update, RemotePlayer.updateTargets, h]
  · simp [RemotePlayer.update, RemotePlayer.updateTargets, h2, hnb]

/-- Witness for C3 (amended): only two snapshots at t = 0 and t = 50 while
renderTime = 200 lies beyond both, so the target stays put. -/
theorem interpolation_no_bracket_leaves_target_witness :
    (sampleStaleBufferView.buffer = [] ∨ (2 ≤ sampleStaleBufferView.buffer.length ∧
      findBracket sampleStaleBufferView.buffer (300 - INTERPOLATION_DELAY) = none)) ∧
    ((RemotePlayer.update 300 sampleStaleBufferView).targetPosition =
        sampleStaleBufferView.targetPosition ∧
     (RemotePlayer.update 300 sampleStaleBufferView).targetRotation =
        sampleStaleBufferView.targetRotation) :=
  ⟨Or.inr ⟨by simp [sampleStaleBufferView],
      by simp [sampleStaleBufferView, findBracket, INTERPOLATION_DELAY]; norm_num⟩,
   interpolation_no_bracket_leaves_target 300 sampleStaleBufferView
     (Or.inr ⟨by simp [sampleStaleBufferView],
      by simp [sampleStaleBufferView, findBracket, INTERPOLATION_DELAY]; norm_num⟩)⟩

/-- C4. Round-trip identity: for every valid envelope, parsing the
serialized form recovers the envelope exactly. -/
theorem parse_serialize_roundtrip (e : Envelope) :
    parseMessage (some (serializeMessage e)) = some e := rfl

/-- C5. On malformed JSON (JSON.parse threw, modelled as none) and on any
parsed value missing one of the four required envelope fields, parseMessage
returns null; being a total function, it never throws. -/
theorem parseMessage_rejects_invalid :
    parseMessage none = none ∧
    ∀ v : Json, hasRequiredFields v = false → parseMessage (some v) = none := by
  refine ⟨rfl, fun v hv => ?_⟩
  unfold parseMessage
  unfold hasRequiredFields at hv
  cases ht : v.getProp "type" with
  | none => simp [ht]
  | some jt =>
    cases jt with
    | str t =>
      cases hp : v.getProp "payload" with
      | none => simp [ht, hp]
      | some p =>
        cases hts : v.getProp "timestamp" with
        | none => simp [ht, hp, hts]
        | some jts =>
          cases jts with
          | num ts =>
            cases hs : v.getProp "senderId" with
            | none => simp [ht, hp, hts, hs]
            | some js =>
              cases js with
              | str sid => simp [ht, hp, hts, hs] at hv
              | null => simp [ht, hp, hts, hs]
              | bool b => simp [ht, hp, hts, hs]
              | num q => simp [ht, hp, hts, hs]
              | arr l => simp [ht, hp, hts, hs]
              | obj l => simp [ht, hp, hts, hs]
          | null => simp [ht, hp, hts]
          | bool b => simp [ht, hp, hts]
          | str s => simp [ht, hp, hts]
          | arr l => simp [ht, hp, hts]
          | obj l => simp [ht, hp, hts]
    | null => simp [ht]
    | bool b => simp [ht]
    | num q => simp [ht]
    | arr l => simp [ht]
    | obj l => simp [ht]

/-- Witness for C5: an object carrying only a string type field is missing
the other three required fields and is rejected. -/
theorem parseMessage_rejects_invalid_witness :
    hasRequiredFields (Json.obj [("type", Json.str "chat:send")]) = false ∧
    parseMessage (some (Json.obj [("type", Json.str "chat:send")])) = none :=
  ⟨rfl, parseMessage_rejects_invalid.2 (Json.obj [("type", Json.str "chat:send")]) rfl⟩

/-- C6. For every failure count a with 1 ≤ a ≤ maxReconnectAttempts, the
a-th connection failure (counter a-1 before it) increments the counter to a
and schedules a reconnect after reconnectInterval times min(a, 5): strictly
base times a for a up to 5 and capped at base times 5 beyond, while a
successful socket open resets the counter to 0. -/
theorem reconnect_backoff_delay (cfg : ClientConfig) (a : Nat)
    (h1 : 1 ≤ a) (h2 : a ≤ cfg.maxReconnectAttempts) :
    LoungeClient.handleConnectionFailure cfg (a - 1) =
      .retry a (cfg.reconnectInterval * min a 5)
    ∧ (a ≤ 5 → cfg.reconnectInterval * min a 5 = cfg.reconnectInterval * a)
    ∧ (5 < a → cfg.reconnectInterval * min a 5 = cfg.reconnectInterval * 5)
    ∧ LoungeClient.onSocketOpen a = 0 := by
  refine ⟨?_, fun h5 => by rw [Nat.min_eq_left h5], fun h5 => by rw [Nat.min_eq_right (le_of_lt h5)], rfl⟩
  unfold LoungeClient.handleConnectionFailure
  have hlt : ¬ cfg.maxReconnectAttempts ≤ a - 1 := by omega
  rw [if_neg hlt]
  have ha : a - 1 + 1 = a := by omega
  simp [ha]

/-- Witness for C6: the seventh failure under the default configuration is
capped at five times the base interval. -/
theorem reconnect_backoff_delay_witness :
    (1 ≤ 7 ∧ 7 ≤ defaultClientConfig.maxReconnectAttempts) ∧
    (LoungeClient.handleConnectionFailure defaultClientConfig (7 - 1) =
      .retry 7 (defaultClientConfig.reconnectInterval * min 7 5)
    ∧ (7 ≤ 5 → defaultClientConfig.reconnectInterval * min 7 5 =
        defaultClientConfig.reconnectInterval * 7)
    ∧ (5 < 7 → defaultClientConfig.reconnectInterval * min 7 5 =
        defaultClientConfig.reconnectInterval * 5)
    ∧ LoungeClient.onSocketOpen 7 = 0) :=
  ⟨⟨by decide, by decide⟩,
   reconnect_backoff_delay defaultClientConfig 7 (by decide) (by decide)⟩

/-- C8. The command parser turns the input slash w bob hello there into a
whisper with target bob and content hello there (remaining tokens re-joined
with single spaces); with fewer than two arguments it returns handled false
with a usage error and sends nothing; and any unrecognized slash command
returns handled false with an Unknown command error and sends nothing. -/
theorem chat_command_parsing :
    ChatManager.handleCommand true "/w bob hello there" =
      (⟨true, none⟩, [.whisper "bob" "hello there"]) ∧
    (∀ connected, ChatManager.handleCommand connected "/w bob" =
      (⟨false, some "Usage: /w <player> <message>"⟩, [])) ∧
    (∀ (connected : Bool) (input : String),
      strToLower ((jsSplitWs (strDrop1 input)).headD "") ∉
        (["me", "w", "whisper", "msg", "tell", "help"] : List String) →
      ChatManager.handleCommand connected input =
        (⟨false, some ("Unknown command: /" ++
          strToLower ((jsSplitWs (strDrop1 input)).headD ""))⟩, [])) := by
  refine ⟨by decide, fun connected => by cases connected <;> decide, ?_⟩
  intro connected input h
  simp only [List.mem_cons, List.not_mem_nil, or_false, not_or] at h
  obtain ⟨hme, hw, hwhisper, hmsg, htell, hhelp⟩ := h
  simp only [ChatManager.handleCommand]
  simp only [List.headD_eq_head?] at hme hw hwhisper hmsg htell hhelp
  simp [hme, hw, hwhisper, hmsg, htell, hhelp]

/-- Witness for C8: the unrecognized command frobnicate yields a handled
false Unknown command result. -/
theorem chat_command_parsing_witness :
    (strToLower ((jsSplitWs (strDrop1 "/frobnicate hey")).headD "") ∉
      (["me", "w", "whisper", "msg", "tell", "help"] : List String)) ∧
    ChatManager.handleCommand true "/frobnicate hey" =
      (⟨false, some ("Unknown command: /" ++
        strToLower ((jsSplitWs (strDrop1 "/frobnicate hey")).headD ""))⟩, []) :=
  ⟨by decide, chat_command_parsing.2.2 true "/frobnicate hey" (by decide)⟩

/-- C7. For every whisper whose target resolves to no connected client
(lookup by truthy id first, else case-insensitive username match), the
server with an open sender socket sends exactly one CHAT_ERROR with code
PLAYER_NOT_FOUND back to the sender and nothing derived from the whisper to
anyone else. -/
theorem whisper_unknown_target_error_only_to_sender
    (clients : List ClientConnection) (sender : ClientConnection)
    (targetId targetName : Option String) (content : String)
    (hopen : sender.socketOpen = true)
    (hmiss : findWhisperTarget clients targetId targetName = none) :
    LoungeServer.handleWhisper clients sender targetId targetName content =
      [(sender.id, .chatError "PLAYER_NOT_FOUND"
        (SystemMessages.playerNotFound (whisperErrorName targetName targetId)))] := by
  unfold LoungeServer.handleWhisper
  rw [hmiss]
  unfold LoungeServer.sendTo
  rw [hopen]
  simp

/-- Witness for C7: whispering to the unknown name carol in a lounge whose
only client is the sender bob yields exactly the one error to bob. -/
theorem whisper_unknown_target_error_only_to_sender_witness :
    (({ id := "b2", username := "bob", socketOpen := true, isAlive := true }
        : ClientConnection).socketOpen = true ∧
     findWhisperTarget [⟨"b2", "bob", true, true⟩] none (some "carol") = none) ∧
    LoungeServer.handleWhisper [⟨"b2", "bob", true, true⟩]
        ⟨"b2", "bob", true, true⟩ none (some "carol") "hi" =
      [("b2", .chatError "PLAYER_NOT_FOUND"
        (SystemMessages.playerNotFound (whisperErrorName (some "carol") none)))] :=
  ⟨⟨rfl, by decide⟩,
   whisper_unknown_target_error_only_to_sender [⟨"b2", "bob", true, true⟩]
     ⟨"b2", "bob", true, true⟩ none (some "carol") "hi" rfl (by decide)⟩

lemma lookupBuffer_map_push (rp : List (String × List PositionSnapshot))
    (u : PlayerPositionUpdate) (pid : String) :
    lookupBuffer (rp.map (fun e =>
      if e.1 == u.id then (e.1, RemotePlayer.pushPositionUpdate e.2 u) else e)) pid =
    (if u.id = pid
     then (lookupBuffer rp pid).map (fun buf => RemotePlayer.pushPositionUpdate buf u)
     else lookupBuffer rp pid) := by
  have hmap : ∀ e : String × List PositionSnapshot,
      ((if e.1 == u.id then (e.1, RemotePlayer.pushPositionUpdate e.2 u) else e)).1 = e.1 := by
    intro e
    by_cases h : (e.1 == u.id) = true <;> simp [h]
  rw [lookupBuffer, List.find?_map]
  have hfind : rp.find? ((fun e : String × List PositionSnapshot => e.1 == pid) ∘
      (fun e => if e.1 == u.id then (e.1, RemotePlayer.pushPositionUpdate e.2 u) else e)) =
      rp.find? (fun e => e.1 == pid) := by
    congr 1
    funext e
    simp only [Function.comp_apply]
    rw [hmap e]
  rw [hfind]
  cases hf : rp.find? (fun e => e.1 == pid) with
  | none => by_cases h2 : u.id = pid <;> simp [lookupBuffer, hf, h2]
  | some e =>
    have hpe : e.1 = pid := by
      have := List.find?_some hf
      simpa using this
    by_cases h2 : u.id = pid
    · have hb : (e.1 == u.id) = true := beq_iff_eq.mpr (by rw [hpe, h2])
      simp [lookupBuffer, hf, h2, hb, hpe]
    · have hb : (e.1 == u.id) = false := by
        rw [beq_eq_false_iff_ne, hpe]
        exact fun hc => h2 hc.symm
      simp [lookupBuffer, hf, h2, hb, beq_eq_false_iff_ne.mp hb]

lemma handleBatch_lookup (localId : Option String) (updates : List PlayerPositionUpdate)
    (rp : List (String × List PositionSnapshot)) (pid : String) :
    lookupBuffer (PlayerManager.handleBatchPositionUpdate localId rp updates) pid =
      (lookupBuffer rp pid).map (fun buf =>
        (updates.filter (fun u => u.id == pid && !(isLocalUpdate localId u.id))).foldl
          RemotePlayer.pushPositionUpdate buf) := by
  induction updates generalizing rp with
  | nil =>
    simp only [PlayerManager.handleBatchPositionUpdate, List.foldl_nil, List.filter_nil]
    cases lookupBuffer rp pid <;> simp
  | cons u us ih =>
    have hstep : PlayerManager.handleBatchPositionUpdate localId rp (u :: us) =
        PlayerManager.handleBatchPositionUpdate localId
          (PlayerManager.applyUpdate localId rp u) us := rfl
    rw [hstep, ih]
    by_cases hl : isLocalUpdate localId u.id = true
    · simp [PlayerManager.applyUpdate, hl, List.filter_cons]
    · have hl' : isLocalUpdate localId u.id = false := by simpa using hl
      simp only [PlayerManager.applyUpdate, hl', Bool.false_eq_true, if_false]
      rw [lookupBuffer_map_push]
      by_cases h2 : u.id = pid
      · have hb : (u.id == pid) = true := beq_iff_eq.mpr h2
        rw [if_pos h2]
        cases hlb : lookupBuffer rp pid with
        | none => simp
        | some buf => simp [List.filter_cons, hb, hl']
      · have hb : (u.id == pid) = false := beq_eq_false_iff_ne.mpr h2
        rw [if_neg h2]
        cases hlb : lookupBuffer rp pid with
        | none => simp
        | some buf => simp [List.filter_cons, hb]

/-- C10. A non-empty PLAYER_BATCH_POSITION batch is broadcast with no
excludeId: the recipients are exactly the clients with an open socket,
including any client whose own update is in the batch; filtering of the
echoed local update happens only on the client, which leaves the local id
untouched and applies to every other player exactly the updates bearing
its id. -/
theorem batch_broadcast_no_sender_exclusion
    (clients : List ClientConnection) (updates : List PlayerPositionUpdate)
    (localId : String) (rp : List (String × List PositionSnapshot)) (pid : String)
    (hne : updates ≠ []) (hpid : pid ≠ localId) :
    LoungeServer.startPlayerBroadcastRecipients clients updates =
      (clients.filter (fun c => c.socketOpen)).map (fun c => c.id)
    ∧ (∀ c ∈ clients, c.socketOpen = true →
        c.id ∈ LoungeServer.startPlayerBroadcastRecipients clients updates)
    ∧ lookupBuffer (PlayerManager.handleBatchPositionUpdate (some localId) rp updates) localId
        = lookupBuffer rp localId
    ∧ lookupBuffer (PlayerManager.handleBatchPositionUpdate (some localId) rp updates) pid =
        (lookupBuffer rp pid).map (fun buf =>
          (updates.filter (fun u => u.id == pid)).foldl RemotePlayer.pushPositionUpdate buf) := by
  have hlen : 0 < updates.length := List.length_pos.mpr hne
  have hrec : LoungeServer.startPlayerBroadcastRecipients clients updates =
      (clients.filter (fun c => c.socketOpen)).map (fun c => c.id) := by
    unfold LoungeServer.startPlayerBroadcastRecipients LoungeServer.broadcastRecipients
    rw [if_pos hlen]
    simp
  refine ⟨hrec, ?_, ?_, ?_⟩
  · intro c hc hopen
    rw [hrec]
    exact List.mem_map_of_mem _ (List.mem_filter.mpr ⟨hc, hopen⟩)
  · rw [handleBatch_lookup]
    have hfil : updates.filter
        (fun u => u.id == localId && !(isLocalUpdate (some localId) u.id)) = [] := by
      rw [List.filter_eq_nil_iff]
      intro u hu
      simp [isLocalUpdate]
    rw [hfil]
    cases lookupBuffer rp localId <;> simp
  · rw [handleBatch_lookup]
    have hfil : updates.filter
        (fun u => u.id == pid && !(isLocalUpdate (some localId) u.id)) =
        updates.filter (fun u => u.id == pid) := by
      apply List.filter_congr
      intro u hu
      by_cases hb : (u.id == pid) = true
      · have : (u.id == localId) = false := by
          rw [beq_eq_false_iff_ne]
          rw [beq_iff_eq.mp hb]
          exact hpid
        simp [isLocalUpdate, hb, this]
      · have hb' : (u.id == pid) = false := by simpa using hb
        simp [hb']
    rw [hfil]

/-- Witness for C10: a one-update batch from alice reaches every open
socket including alice, while on a client whose local player is alice the
map entry of the other player c3 receives exactly the updates with id c3. -/
theorem batch_broadcast_no_sender_exclusion_witness :
    (sampleBatch ≠ [] ∧ "c3" ≠ "a1") ∧
    (LoungeServer.startPlayerBroadcastRecipients sampleClients sampleBatch =
      (sampleClients.filter (fun c => c.socketOpen)).map (fun c => c.id)
    ∧ (∀ c ∈ sampleClients, c.socketOpen = true →
        c.id ∈ LoungeServer.startPlayerBroadcastRecipients sampleClients sampleBatch)
    ∧ lookupBuffer
        (PlayerManager.handleBatchPositionUpdate (some "a1") sampleRemoteMap sampleBatch) "a1"
        = lookupBuffer sampleRemoteMap "a1"
    ∧ lookupBuffer
        (PlayerManager.handleBatchPositionUpdate (some "a1") sampleRemoteMap sampleBatch) "c3" =
        (lookupBuffer sampleRemoteMap "c3").map (fun buf =>
          (sampleBatch.filter (fun u => u.id == "c3")).foldl
            RemotePlayer.pushPositionUpdate buf)) :=
  ⟨⟨by simp [sampleBatch], by decide⟩,
   batch_broadcast_no_sender_exclusion sampleClients sampleBatch "a1" sampleRemoteMap "c3"
     (by simp [sampleBatch]) (by decide)⟩

lemma map_key_set {α : Type} (key : α → String) (m : List α) (v : α) :
    (m.map (fun y => if key y == key v then v else y)).map key = m.map key := by
  rw [List.map_map]
  apply List.map_congr_left
  intro y _
  simp only [Function.comp_apply]
  by_cases hk : (key y == key v) = true
  · simp [hk, beq_iff_eq.mp hk]
  · simp [hk]

lemma mem_map_key_msetBy {α : Type} (key : α → String) (m : List α) (v : α) (x : String) :
    (x ∈ (msetBy key m v).map key) ↔ (x ∈ m.map key ∨ x = key v) := by
  unfold msetBy
  by_cases h : m.any (fun x => key x == key v) = true
  · rw [if_pos h, map_key_set]
    constructor
    · exact Or.inl
    · rintro (hx | rfl)
      · exact hx
      · rcases List.any_eq_true.mp h with ⟨y, hy, hky⟩
        rw [← beq_iff_eq.mp hky]
        exact List.mem_map_of_mem key hy
  · rw [if_neg h, List.map_append]
    simp [eq_comm]

lemma nodup_map_key_msetBy {α : Type} (key : α → String) (m : List α) (v : α)
    (h : (m.map key).Nodup) : ((msetBy key m v).map key).Nodup := by
  unfold msetBy
  by_cases hany : m.any (fun x => key x == key v) = true
  · rw [if_pos hany, map_key_set]
    exact h
  · rw [if_neg hany, List.map_append]
    have hnotmem : key v ∉ m.map key := by
      intro hmem
      rcases List.mem_map.mp hmem with ⟨y, hy, hky⟩
      exact hany (List.any_eq_true.mpr ⟨y, hy, beq_iff_eq.mpr hky⟩)
    simp [List.nodup_append, h, hnotmem]

lemma mem_map_key_mdelBy {α : Type} (key : α → String) (m : List α) (k : String) (x : String) :
    (x ∈ (mdelBy key m k).map key) ↔ (x ∈ m.map key ∧ x ≠ k) := by
  unfold mdelBy
  constructor
  · intro hx
    rcases List.mem_map.mp hx with ⟨y, hy, rfl⟩
    rcases List.mem_filter.mp hy with ⟨hym, hyk⟩
    refine ⟨List.mem_map_of_mem key hym, ?_⟩
    simpa using hyk
  · rintro ⟨hx, hne⟩
    rcases List.mem_map.mp hx with ⟨y, hy, rfl⟩
    apply List.mem_map_of_mem
    rw [List.mem_filter]
    refine ⟨hy, ?_⟩
    simpa using hne

lemma nodup_map_key_mdelBy {α : Type} (key : α → String) (m : List α) (k : String)
    (h : (m.map key).Nodup) : ((mdelBy key m k).map key).Nodup := by
  unfold mdelBy
  exact h.sublist ((List.filter_sublist m).map key)

lemma heartbeatSweep_clients (clients : List ClientConnection)
    (players : List ServerPlayerState) :
    (LoungeServer.heartbeatSweep clients players).1 =
      (clients.filter (fun c => c.isAlive)).map (fun c => { c with isAlive := false }) := by
  induction clients generalizing players with
  | nil => rfl
  | cons c rest ih =>
    by_cases h : c.isAlive = true
    · simp [LoungeServer.heartbeatSweep, h, List.filter_cons, ih]
    · have h' : c.isAlive = false := by simpa using h
      simp [LoungeServer.heartbeatSweep, h', List.filter_cons, ih]

lemma heartbeatSweep_players (clients : List ClientConnection)
    (players : List ServerPlayerState) :
    (LoungeServer.heartbeatSweep clients players).2 =
      players.filter (fun p => !(clients.any (fun c => !c.isAlive && p.id == c.id))) := by
  induction clients generalizing players with
  | nil => simp [LoungeServer.heartbeatSweep]
  | cons c rest ih =>
    by_cases h : c.isAlive = true
    · simp [LoungeServer.heartbeatSweep, h, ih]
    · have h' : c.isAlive = false := by simpa using h
      simp only [LoungeServer.heartbeatSweep, h', Bool.not_false, if_pos, ih,
        PlayerRegistry.removePlayer, mdelBy, List.filter_filter]
      apply List.filter_congr
      intro p _
      simp [h', Bool.not_or, Bool.and_comm]

/-- C9. Each synchronous server handler, connection accept, socket close
handling, and a full heartbeat sweep, preserves the invariant that the
session ids of the clients map and the player ids of the registry are the
same set with exactly one entry per id: every session removal is paired
with the removal of the player state of that session in the same step. -/
theorem session_player_maps_consistent
    (clients : List ClientConnection) (players : List ServerPlayerState)
    (clientId username : String) (color : Nat) (now : ℚ)
    (h : MapsConsistent clients players) :
    MapsConsistent (LoungeServer.handleConnection clients players clientId username color now).1
      (LoungeServer.handleConnection clients players clientId username color now).2
    ∧ MapsConsistent (LoungeServer.handleDisconnect clients players clientId).1
      (LoungeServer.handleDisconnect clients players clientId).2
    ∧ MapsConsistent (LoungeServer.heartbeatSweep clients players).1
      (LoungeServer.heartbeatSweep clients players).2 := by
  obtain ⟨hcp, hpc, hcn, hpn⟩ := h
  refine ⟨⟨?_, ?_, ?_, ?_⟩, ⟨?_, ?_, ?_, ?_⟩, ?_⟩
  · intro x hx
    rcases (mem_map_key_msetBy (fun c : ClientConnection => c.id) clients
        ⟨clientId, username, true, true⟩ x).mp hx with h1 | rfl
    · exact (mem_map_key_msetBy (fun p : ServerPlayerState => p.id) players _ x).mpr
        (Or.inl (hcp x h1))
    · exact (mem_map_key_msetBy (fun p : ServerPlayerState => p.id) players _ _).mpr
        (Or.inr rfl)
  · intro x hx
    rcases (mem_map_key_msetBy (fun p : ServerPlayerState => p.id) players _ x).mp hx
      with h1 | rfl
    · exact (mem_map_key_msetBy (fun c : ClientConnection => c.id) clients
        ⟨clientId, username, true, true⟩ x).mpr (Or.inl (hpc x h1))
    · exact (mem_map_key_msetBy (fun c : ClientConnection => c.id) clients _ _).mpr
        (Or.inr rfl)
  · exact nodup_map_key_msetBy (fun c : ClientConnection => c.id) clients
      ⟨clientId, username, true, true⟩ hcn
  · exact nodup_map_key_msetBy (fun p : ServerPlayerState => p.id) players _ hpn
  · intro x hx
    obtain ⟨h1, h2⟩ := (mem_map_key_mdelBy (fun c : ClientConnection => c.id)
      clients clientId x).mp hx
    exact (mem_map_key_mdelBy (fun p : ServerPlayerState => p.id) players clientId x).mpr
      ⟨hcp x h1, h2⟩
  · intro x hx
    obtain ⟨h1, h2⟩ := (mem_map_key_mdelBy (fun p : ServerPlayerState => p.id)
      players clientId x).mp hx
    exact (mem_map_key_mdelBy (fun c : ClientConnection => c.id) clients clientId x).mpr
      ⟨hpc x h1, h2⟩
  · exact nodup_map_key_mdelBy (fun c : ClientConnection => c.id) clients clientId hcn
  · exact nodup_map_key_mdelBy (fun p : ServerPlayerState => p.id) players clientId hpn
  · have swc : ∀ x, x ∈ clientIds (LoungeServer.heartbeatSweep clients players).1 ↔
        ∃ c ∈ clients, c.isAlive = true ∧ c.id = x := by
      intro x
      unfold clientIds
      rw [heartbeatSweep_clients, List.map_map]
      constructor
      · intro hx
        rcases List.mem_map.mp hx with ⟨c, hc, hcx⟩
        rcases List.mem_filter.mp hc with ⟨hcm, hca⟩
        exact ⟨c, hcm, hca, hcx⟩
      · rintro ⟨c, hc, hca, rfl⟩
        exact List.mem_map.mpr ⟨c, List.mem_filter.mpr ⟨hc, hca⟩, rfl⟩
    have swp : ∀ x, x ∈ playerIds (LoungeServer.heartbeatSweep clients players).2 ↔
        (x ∈ playerIds players ∧ ∀ c ∈ clients, c.isAlive = false → x ≠ c.id) := by
      intro x
      unfold playerIds
      rw [heartbeatSweep_players]
      constructor
      · intro hx
        rcases List.mem_map.mp hx with ⟨p, hp, rfl⟩
        rcases List.mem_filter.mp hp with ⟨hpm, hpf⟩
        refine ⟨List.mem_map_of_mem _ hpm, ?_⟩
        intro c hc hdead heq
        have hany : clients.any (fun c => !c.isAlive && p.id == c.id) = false := by
          simpa using hpf
        rw [List.any_eq_false] at hany
        exact hany c hc (by simp [hdead, beq_iff_eq.mpr heq])
      · rintro ⟨hx, hforall⟩
        rcases List.mem_map.mp hx with ⟨p, hpm, rfl⟩
        refine List.mem_map_of_mem _ (List.mem_filter.mpr ⟨hpm, ?_⟩)
        have hany : clients.any (fun c => !c.isAlive && p.id == c.id) = false := by
          rw [List.any_eq_false]
          intro c hc hcontra
          rw [Bool.and_eq_true] at hcontra
          obtain ⟨hd, hb⟩ := hcontra
          have hdead : c.isAlive = false := by simpa using hd
          exact hforall c hc hdead (beq_iff_eq.mp hb)
        simp [hany]
    refine ⟨?_, ?_, ?_, ?_⟩
    · intro x hx
      rcases (swc x).mp hx with ⟨c, hc, hca, rfl⟩
      apply (swp c.id).mpr
      refine ⟨hcp c.id (List.mem_map_of_mem _ hc), ?_⟩
      intro c' hc' hdead heq
      have hinj := List.inj_on_of_nodup_map hcn
      have hcc : c = c' := hinj hc hc' heq
      rw [hcc, hdead] at hca
      exact Bool.false_ne_true hca
    · intro x hx
      obtain ⟨hxp, hforall⟩ := (swp x).mp hx
      have hxc : x ∈ clientIds clients := hpc x hxp
      rcases List.mem_map.mp hxc with ⟨c, hc, rfl⟩
      apply (swc c.id).mpr
      by_cases hal : c.isAlive = true
      · exact ⟨c, hc, hal, rfl⟩
      · have hdead : c.isAlive = false := by simpa using hal
        exact absurd rfl (hforall c hc hdead)
    · have h1 : clientIds (LoungeServer.heartbeatSweep clients players).1 =
          (clients.filter (fun c => c.isAlive)).map (fun c => c.id) := by
        unfold clientIds
        rw [heartbeatSweep_clients, List.map_map]
        rfl
      rw [h1]
      exact hcn.sublist ((List.filter_sublist clients).map _)
    · have h2 : playerIds (LoungeServer.heartbeatSweep clients players).2 =
          (players.filter
            (fun p => !(clients.any (fun c => !c.isAlive && p.id == c.id)))).map
            (fun p => p.id) := by
        unfold playerIds
        rw [heartbeatSweep_players]
      rw [h2]
      exact hpn.sublist ((List.filter_sublist players).map _)

/-- Witness for C9: a lounge with a live session a1 and a dead session b2,
each holding exactly one player state, stays consistent through a
connection accept for n9, a disconnect of n9, and a heartbeat sweep. -/
theorem session_player_maps_consistent_witness :
    MapsConsistent sampleSweepClients [samplePlayerDirty, samplePlayerClean] ∧
    (MapsConsistent
        (LoungeServer.handleConnection sampleSweepClients
          [samplePlayerDirty, samplePlayerClean] "n9" "nina" 3 600).1
        (LoungeServer.handleConnection sampleSweepClients
          [samplePlayerDirty, samplePlayerClean] "n9" "nina" 3 600).2
    ∧ MapsConsistent
        (LoungeServer.handleDisconnect sampleSweepClients
          [samplePlayerDirty, samplePlayerClean] "n9").1
        (LoungeServer.handleDisconnect sampleSweepClients
          [samplePlayerDirty, samplePlayerClean] "n9").2
    ∧ MapsConsistent
        (LoungeServer.heartbeatSweep sampleSweepClients
          [samplePlayerDirty, samplePlayerClean]).1
        (LoungeServer.heartbeatSweep sampleSweepClients
          [samplePlayerDirty, samplePlayerClean]).2) :=
  ⟨by simp [MapsConsistent, clientIds, playerIds, sampleSweepClients,
      samplePlayerDirty, samplePlayerClean],
   session_player_maps_consistent sampleSweepClients
     [samplePlayerDirty, samplePlayerClean] "n9" "nina" 3 600
     (by simp [MapsConsistent, clientIds, playerIds, sampleSweepClients,
        samplePlayerDirty, samplePlayerClean])⟩
